import Mathlib

/-!
Verification of the multi-agent coordinator/router orchestration engine of
the Agentic-AI-Systems repository.

Two implementations of the engine exist in the repository and are embedded
here side by side:

* namespace `Lab` — `course/Labs/12_multi_agent_systems.py`
* namespace `Adv` — `Lessons/Chapter06/advanced_multi_agent.py`

Modelling conventions (shallow embedding):

* Python `int` fields (`current_iteration`, `max_iterations`, message
  `iteration`) are `Int`; Python `%` on a positive modulus agrees with
  `Int.emod`, and all comparisons (`==`, `<`, `>`, `>=`) are literal.
* Python `float` scores are `ℚ`.  The score constants `0.5` and `0.9` are
  built with explicit `Rat` constructors (`qhalf`, `q09`) so that the
  kernel can evaluate comparisons; `qhalf = 1/2` and `q09 = 9/10` are
  proved below.  Every float comparison performed by the code
  (`0 >= 0.9`, `0.5 >= 0.9`, `1.0 >= 0.9`) is exact in binary64, so the
  rational model is faithful.
* `time.time()` timestamps are never read by any control flow; they are
  modelled by the constant `now = 0`.
* `print` calls and `time.sleep` have no effect on the state and are
  dropped.
* A `TypedDict` with `total=False` is modelled as a structure in which a
  key that is read through `state.get(k, d)` holds its default `d` when
  the Python dict would lack it; keys that can hold `None` (`solution`,
  `evaluation`, `current_phase`, and in `Lab` also `current_agent`, which
  receives `list(missing)[0]`, an element of a set of `Optional` values)
  are `Option`s.
* Python `set` objects (`needed_responses`, `received_responses`,
  `missing`) iterate in an unspecified (hash-dependent) order; they are
  modelled as duplicate-free lists in first-insertion order, a canonical
  deterministic choice.  Only emptiness, membership, subset and
  difference are observed by the code, plus `list(missing)[0]`, for which
  the canonical order fixes "first" as the first-requested missing role.
  `list(missing)[0]` raises in Python on an empty set; the branch that
  executes it guarantees non-emptiness, and the total model uses `headI`.
* The `while not decide_if_finished(...)` driver loop of the advanced
  file is modelled with explicit fuel (`runLoop`); `runLoop_finished` and
  `runLoop_add` show that once the guard is satisfied the result is
  independent of any further fuel, i.e. the fuelled function computes the
  limit of the source loop whenever the fuel suffices (which is proved).
-/

namespace MultiAgent

/-- ASCII single-quote character, used by the Python templates to quote the
task string. -/
def sq : String := String.singleton (Char.ofNat 39)

/-- Wall-clock `time.time()` stamp; no control flow ever reads it, so it is
modelled by a constant. -/
def now : ℚ := 0

/-- The rational `1/2`, written with an explicit constructor so that the
kernel can evaluate comparisons against it. -/
def qhalf : ℚ := ⟨1, 2, by decide, by norm_num⟩

/-- The rational `9/10` (the Python literal `0.9`), written with an explicit
constructor so that the kernel can evaluate comparisons against it. -/
def q09 : ℚ := ⟨9, 10, by decide, by norm_num⟩

/-- Bool test: the first list is a prefix of the second (on characters). -/
def strPrefixL : List Char → List Char → Bool
  | [], _ => true
  | _ :: _, [] => false
  | p :: ps, c :: cs => p == c && strPrefixL ps cs

/-- Bool test: the pattern occurs as a contiguous sublist. -/
def hasSubL : List Char → List Char → Bool
  | [], p => strPrefixL p []
  | c :: rest, p => strPrefixL p (c :: rest) || hasSubL rest p

/-- Python `pat in s` on strings. -/
def strContains (s pat : String) : Bool := hasSubL s.data pat.data

/-- Python `s.lower()`. -/
def lowerStr (s : String) : String := ⟨s.data.map Char.toLower⟩

/-- Duplicate-free list in first-insertion order: the canonical model of a
Python `set` built by successive insertions. -/
def dedupIns {α : Type} [BEq α] : List α → List α
  | [] => []
  | x :: xs => x :: (dedupIns xs).filter (fun y => !(y == x))

/-- Python `d[k] = v` on a string-keyed dict kept as an association list. -/
def setKey (l : List (String × String)) (k v : String) : List (String × String) :=
  if l.any (fun p => p.1 == k) then
    l.map (fun p => if p.1 == k then (k, v) else p)
  else l ++ [(k, v)]

/-- Python `next((m["content"] for m in reversed(messages) if p m), "")`. -/
def lastContent {μ : Type} (msgs : List μ) (content : μ → String) (p : μ → Bool) : String :=
  ((msgs.reverse.find? p).map content).getD ""

/-- `class AgentRole(str, Enum)` — identical in both files. -/
inductive AgentRole : Type
  | coordinator
  | researcher
  | critic
  | executor
  | evaluator
deriving DecidableEq, Repr

/-- `class AgentMessage(TypedDict)` — identical in both files.
`to_agent = None` means broadcast. -/
structure AgentMessage : Type where
  from_agent : AgentRole
  to_agent : Option AgentRole
  content : String
  timestamp : ℚ
  msg_type : String
  iteration : Int
deriving DecidableEq, Repr

namespace Lab

/-- `class MultiAgentState(TypedDict, total=False)` of
`course/Labs/12_multi_agent_systems.py`.  `current_agent` is an `Option`
because the missing-responses branch stores `list(missing)[0]`, an element
of a set of `Optional[AgentRole]` values. -/
structure MultiAgentState : Type where
  task : String
  messages : List AgentMessage
  artifacts : List (String × String)
  current_agent : Option AgentRole
  convergence_score : ℚ
  solution : Option String
  evaluation : Option (List (String × ℚ))
  max_iterations : Int
  current_iteration : Int
deriving DecidableEq, Repr

/-- `recent_messages` of the Coordinator's middle branch (line 104):
messages of the previous cycle. -/
def recentMessages (s : MultiAgentState) : List AgentMessage :=
  s.messages.filter (fun m => m.iteration == s.current_iteration - 1)

/-- `needed_responses` (lines 107-110): the targets of the Coordinator's
requests of the previous cycle. -/
def neededResponses (s : MultiAgentState) : List (Option AgentRole) :=
  dedupIns (((recentMessages s).filter
    (fun m => m.from_agent == AgentRole.coordinator && m.msg_type == "request")).map
    (fun m => m.to_agent))

/-- `received_responses` (lines 112-113): the senders of the previous
cycle's responses addressed to the Coordinator. -/
def receivedResponses (s : MultiAgentState) : List AgentRole :=
  dedupIns (((recentMessages s).filter
    (fun m => m.msg_type == "response" && m.to_agent == some AgentRole.coordinator)).map
    (fun m => m.from_agent))

/-- The Coordinator's retry condition (line 116):
`needed_responses and not needed_responses.issubset(received_responses)`. -/
def needed_not_met (s : MultiAgentState) : Bool :=
  !(neededResponses s).isEmpty &&
    !((neededResponses s).all (fun x =>
      (receivedResponses s).any (fun r => (some r : Option AgentRole) == x)))

/-- `missing = needed_responses - received_responses` (line 117). -/
def missingResponses (s : MultiAgentState) : List (Option AgentRole) :=
  (neededResponses s).filter (fun x =>
    !((receivedResponses s).any (fun r => (some r : Option AgentRole) == x)))

/-- `execution_results` (lines 188-190): the contents of all Executor
responses in the log, in order. -/
def executionResults (s : MultiAgentState) : List String :=
  ((s.messages.filter
    (fun m => m.from_agent == AgentRole.executor && m.msg_type == "response")).map
    (fun m => m.content))

/-- The draft solution assembled by the Coordinator's final branch
(lines 193-194). -/
def finalSolution (s : MultiAgentState) : String :=
  "FINAL SOLUTION:\n\n" ++
    (if (executionResults s).isEmpty then "No solution developed."
     else String.intercalate "\n" ((executionResults s).drop ((executionResults s).length - 2)))

/-- The initial plan artifact (line 80). -/
def initial_plan : String :=
  "1. Research phase: Gather information\n2. Analysis phase: Evaluate options\n3. Planning phase: Develop solution\n4. Execution phase: Implement solution"

/-- `coordinator_agent` (lines 62-212). -/
def coordinator_agent (s : MultiAgentState) : MultiAgentState :=
  if s.current_iteration = 0 then
    { s with
      messages := s.messages ++
        [{ from_agent := .coordinator, to_agent := some .researcher,
           content := "Please research the following task: " ++ s.task,
           timestamp := now, msg_type := "request", iteration := s.current_iteration }],
      artifacts := setKey s.artifacts "plan" initial_plan,
      current_iteration := s.current_iteration + 1,
      current_agent := some .researcher }
  else if s.current_iteration < s.max_iterations - 1 then
    if needed_not_met s then
      { s with
        messages := s.messages ++ (missingResponses s).map (fun agent =>
          { from_agent := .coordinator, to_agent := agent,
            content := "Following up on my previous request. Please respond.",
            timestamp := now, msg_type := "request", iteration := s.current_iteration }),
        current_agent := (missingResponses s).headI,
        current_iteration := s.current_iteration + 1 }
    else if s.current_iteration % 3 = 0 then
      { s with
        messages := s.messages ++
          [{ from_agent := .coordinator, to_agent := some .researcher,
             content := "Please continue researching and provide additional information.",
             timestamp := now, msg_type := "request", iteration := s.current_iteration }],
        current_agent := some .researcher,
        current_iteration := s.current_iteration + 1 }
    else if s.current_iteration % 3 = 1 then
      { s with
        messages := s.messages ++
          [{ from_agent := .coordinator, to_agent := some .critic,
             content := "Please critique this research and suggest improvements:\n\n" ++
               lastContent s.messages (fun m => m.content)
                 (fun m => m.from_agent == AgentRole.researcher && m.msg_type == "response"),
             timestamp := now, msg_type := "request", iteration := s.current_iteration }],
        current_agent := some .critic,
        current_iteration := s.current_iteration + 1 }
    else
      { s with
        messages := s.messages ++
          [{ from_agent := .coordinator, to_agent := some .executor,
             content := "Based on our research and critique, please develop a solution:\n\n" ++
               lastContent s.messages (fun m => m.content)
                 (fun m => m.from_agent == AgentRole.critic && m.msg_type == "response"),
             timestamp := now, msg_type := "request", iteration := s.current_iteration }],
        current_agent := some .executor,
        current_iteration := s.current_iteration + 1 }
  else
    { s with
      solution := some (finalSolution s),
      messages := s.messages ++
        [{ from_agent := .coordinator, to_agent := some .evaluator,
           content := "Please evaluate this solution:\n\n" ++ finalSolution s,
           timestamp := now, msg_type := "request", iteration := s.current_iteration }],
      current_iteration := s.current_iteration + 1,
      current_agent := some .evaluator }

/-- The research text produced by `researcher_agent` (lines 238-265). -/
def researchText (task request : String) (current_iteration : Int) : String :=
  if strContains (lowerStr request) "research" || strContains (lowerStr request) "information" then
    if current_iteration ≤ 1 then
      "Initial research on " ++ sq ++ task ++ sq ++ ":\n\n" ++
      "1. Key aspects of the problem:\n" ++
      "   - The problem involves multiple stakeholders\n" ++
      "   - There are technical and non-technical components\n" ++
      "   - Time constraints will affect the solution\n\n" ++
      "2. Potential approaches:\n" ++
      "   - Approach A: Quick implementation, moderate results\n" ++
      "   - Approach B: Longer timeline, more comprehensive\n" ++
      "   - Approach C: Hybrid solution with phased delivery"
    else
      "Additional research on " ++ sq ++ task ++ sq ++ ":\n\n" ++
      "3. Detailed analysis of approaches:\n" ++
      "   - Approach A strengths: faster implementation, lower cost\n" ++
      "   - Approach B strengths: more complete solution, better long-term results\n" ++
      "   - Approach C strengths: balances time constraints with solution quality\n\n" ++
      "4. Related case studies:\n" ++
      "   - Case Study X demonstrated a 40% improvement using a hybrid approach\n" ++
      "   - Case Study Y showed technical challenges with rapid implementation\n\n" ++
      "5. Recommended approach based on research: Approach C (Hybrid solution)"
  else
    "Research findings for task " ++ sq ++ task ++ sq ++ ":\n\n" ++
    "The task requires balancing multiple factors including time, quality, and resources.\n" ++
    "Based on analysis, a flexible approach with regular evaluation points is recommended."

/-- `researcher_agent` (lines 214-281). -/
def researcher_agent (s : MultiAgentState) : MultiAgentState :=
  { s with
    messages := s.messages ++
      [{ from_agent := .researcher, to_agent := some .coordinator,
         content := researchText s.task
           (lastContent s.messages (fun m => m.content)
             (fun m => m.to_agent == some AgentRole.researcher && m.msg_type == "request"))
           s.current_iteration,
         timestamp := now, msg_type := "response", iteration := s.current_iteration - 1 }],
    current_agent := some .coordinator }

/-- The critique text produced by `critic_agent` (lines 306-323). -/
def critiqueText : String :=
  "Critique of the research:\n\n" ++
  "Strengths:\n" ++
  "- Good identification of multiple approaches\n" ++
  "- Consideration of stakeholder needs\n" ++
  "- Evidence-based recommendations\n\n" ++
  "Weaknesses:\n" ++
  "- Insufficient detail on implementation steps\n" ++
  "- Limited consideration of resource constraints\n" ++
  "- Missing risk assessment for each approach\n\n" ++
  "Suggestions for improvement:\n" ++
  "1. Develop a more detailed implementation plan for the hybrid approach\n" ++
  "2. Add a section on required resources and potential constraints\n" ++
  "3. Include a risk assessment and mitigation strategies\n" ++
  "4. Consider a phased implementation with clear milestones\n\n" ++
  "Recommended focus: Develop a phased implementation plan with risk mitigation strategies."

/-- `critic_agent` (lines 283-339). -/
def critic_agent (s : MultiAgentState) : MultiAgentState :=
  { s with
    messages := s.messages ++
      [{ from_agent := .critic, to_agent := some .coordinator,
         content := critiqueText,
         timestamp := now, msg_type := "response", iteration := s.current_iteration - 1 }],
    current_agent := some .coordinator }

/-- The implementation plan text produced by `executor_agent`
(lines 365-393). -/
def solutionText (task : String) : String :=
  "Implementation plan for task " ++ sq ++ task ++ sq ++ ":\n\n" ++
  "Phase 1: Setup and Initial Implementation (Weeks 1-2)\n" ++
  "- Action 1.1: Establish project team and roles\n" ++
  "- Action 1.2: Define success metrics and KPIs\n" ++
  "- Action 1.3: Set up basic infrastructure\n" ++
  "- Milestone: Basic framework operational\n\n" ++
  "Phase 2: Core Development (Weeks 3-6)\n" ++
  "- Action 2.1: Implement primary functionality\n" ++
  "- Action 2.2: Develop integration points\n" ++
  "- Action 2.3: Create monitoring system\n" ++
  "- Milestone: Core system operational\n\n" ++
  "Phase 3: Refinement and Expansion (Weeks 7-10)\n" ++
  "- Action 3.1: Add advanced features\n" ++
  "- Action 3.2: Optimize performance\n" ++
  "- Action 3.3: Implement feedback from early phases\n" ++
  "- Milestone: Complete solution deployed\n\n" ++
  "Risk Mitigation:\n" ++
  "- Risk 1: Resource constraints → Prioritization framework established\n" ++
  "- Risk 2: Technical challenges → Expert advisors identified\n" ++
  "- Risk 3: Timeline pressure → Buffer periods built into schedule\n\n" ++
  "Required Resources:\n" ++
  "- Team: 1 project manager, 2 senior developers, 1 QA specialist\n" ++
  "- Infrastructure: Cloud hosting, CI/CD pipeline\n" ++
  "- Budget: Estimated at $X for initial 3 months"

/-- `executor_agent` (lines 341-409). -/
def executor_agent (s : MultiAgentState) : MultiAgentState :=
  { s with
    messages := s.messages ++
      [{ from_agent := .executor, to_agent := some .coordinator,
         content := solutionText s.task,
         timestamp := now, msg_type := "response", iteration := s.current_iteration - 1 }],
    current_agent := some .coordinator }

/-- The `evaluation` metric dict of `evaluator_agent` (lines 436-443),
in insertion order. -/
def evaluationMetrics : List (String × ℚ) :=
  [("comprehensiveness", 85/100), ("feasibility", 78/100), ("clarity", 91/100),
   ("risk_management", 72/100), ("resource_allocation", 80/100), ("overall_quality", 82/100)]

/-- The evaluation text of `evaluator_agent` (lines 446-463); the loop over
the constant metric dict and the `:.2f` / `:.1f` formats are inlined. -/
def evaluationText : String :=
  "Solution Evaluation:\n\n" ++
  "Strengths:\n" ++
  "- Well-structured phased approach\n" ++
  "- Clear milestones and deliverables\n" ++
  "- Good consideration of risks\n" ++
  "- Realistic timeline\n\n" ++
  "Areas for improvement:\n" ++
  "- More detail needed on specific technologies\n" ++
  "- Budget estimates could be more precise\n" ++
  "- Additional contingency planning recommended\n\n" ++
  "Metrics:\n" ++
  "- Comprehensiveness: 0.85/1.00\n" ++
  "- Feasibility: 0.78/1.00\n" ++
  "- Clarity: 0.91/1.00\n" ++
  "- Risk Management: 0.72/1.00\n" ++
  "- Resource Allocation: 0.80/1.00\n" ++
  "- Overall Quality: 0.82/1.00\n" ++
  "\nOverall assessment: 82.0% optimal solution"

/-- `evaluator_agent` (lines 411-480).  Note: it does not touch
`current_agent` (the graph edge returns control to the Coordinator), and it
sets `convergence_score = 1.0` unconditionally. -/
def evaluator_agent (s : MultiAgentState) : MultiAgentState :=
  { s with
    messages := s.messages ++
      [{ from_agent := .evaluator, to_agent := some .coordinator,
         content := evaluationText,
         timestamp := now, msg_type := "response", iteration := s.current_iteration - 1 }],
    evaluation := some evaluationMetrics,
    convergence_score := 1 }

/-- `router` (lines 486-488). -/
def router (s : MultiAgentState) : Option AgentRole := s.current_agent

/-- `decide_if_finished` (lines 494-509).  Its budget arm requires
`current_iteration > max_iterations` (strict) and a present evaluation. -/
def decide_if_finished (s : MultiAgentState) : Bool :=
  if s.convergence_score ≥ q09 then true
  else if s.current_iteration > s.max_iterations then
    if s.evaluation.isSome then true else false
  else false

/-- The role → agent-function table installed by `build_multi_agent_graph`
via `add_node` (lines 521-525). -/
def agentFn : AgentRole → MultiAgentState → MultiAgentState
  | .coordinator => coordinator_agent
  | .researcher => researcher_agent
  | .critic => critic_agent
  | .executor => executor_agent
  | .evaluator => evaluator_agent

end Lab

namespace Adv

/-- `class MultiAgentState(TypedDict, total=False)` of
`Lessons/Chapter06/advanced_multi_agent.py`; compared with the lab state it
adds `current_phase`, and `current_agent` only ever holds concrete roles. -/
structure MultiAgentState : Type where
  task : String
  messages : List AgentMessage
  artifacts : List (String × String)
  current_agent : AgentRole
  current_phase : Option String
  convergence_score : ℚ
  solution : Option String
  evaluation : Option (List (String × ℚ))
  max_iterations : Int
  current_iteration : Int
deriving DecidableEq, Repr

/-- `execution_results` (lines 169-171 and 207-209). -/
def executionResults (s : MultiAgentState) : List String :=
  ((s.messages.filter
    (fun m => m.from_agent == AgentRole.executor && m.msg_type == "response")).map
    (fun m => m.content))

/-- The draft solution assembled by the Coordinator's final branch
(lines 212-213). -/
def finalSolution (s : MultiAgentState) : String :=
  "FINAL SOLUTION:\n\n" ++
    (if (executionResults s).isEmpty then "No solution developed."
     else String.intercalate "\n" ((executionResults s).drop ((executionResults s).length - 2)))

/-- The initial plan artifact (line 91). -/
def initial_plan : String :=
  "1. Research phase: Gather information\n2. Analysis phase: Evaluate options\n3. Planning phase: Develop solution\n4. Execution phase: Implement solution"

/-- `coordinator_agent` (lines 73-232).  The middle branch computes
`recent_messages` but never uses it; the phase table has four non-terminal
phases (`iteration % 4`), with phase 3 an evaluation check that falls back
to the Researcher when no execution results exist yet. -/
def coordinator_agent (s : MultiAgentState) : MultiAgentState :=
  if s.current_iteration = 0 then
    { s with
      messages := s.messages ++
        [{ from_agent := .coordinator, to_agent := some .researcher,
           content := "Please research the following task: " ++ s.task,
           timestamp := now, msg_type := "request", iteration := s.current_iteration }],
      artifacts := setKey s.artifacts "plan" initial_plan,
      current_iteration := s.current_iteration + 1,
      current_agent := .researcher,
      current_phase := some "research" }
  else if s.current_iteration < s.max_iterations - 1 then
    if s.current_iteration % 4 = 0 then
      { s with
        messages := s.messages ++
          [{ from_agent := .coordinator, to_agent := some .researcher,
             content := "Please continue researching and provide additional information.",
             timestamp := now, msg_type := "request", iteration := s.current_iteration }],
        current_agent := .researcher,
        current_phase := some "research",
        current_iteration := s.current_iteration + 1 }
    else if s.current_iteration % 4 = 1 then
      { s with
        messages := s.messages ++
          [{ from_agent := .coordinator, to_agent := some .critic,
             content := "Please critique this research and suggest improvements:\n\n" ++
               lastContent s.messages (fun m => m.content)
                 (fun m => m.from_agent == AgentRole.researcher && m.msg_type == "response"),
             timestamp := now, msg_type := "request", iteration := s.current_iteration }],
        current_agent := .critic,
        current_phase := some "critique",
        current_iteration := s.current_iteration + 1 }
    else if s.current_iteration % 4 = 2 then
      { s with
        messages := s.messages ++
          [{ from_agent := .coordinator, to_agent := some .executor,
             content := "Based on our research and critique, please develop a solution:\n\n" ++
               lastContent s.messages (fun m => m.content)
                 (fun m => m.from_agent == AgentRole.critic && m.msg_type == "response"),
             timestamp := now, msg_type := "request", iteration := s.current_iteration }],
        current_agent := .executor,
        current_phase := some "execution",
        current_iteration := s.current_iteration + 1 }
    else
      if !(executionResults s).isEmpty then
        { s with
          messages := s.messages ++
            [{ from_agent := .coordinator, to_agent := some .evaluator,
               content := "Please evaluate this solution draft:\n\n" ++
                 ((executionResults s).getLast?.getD ""),
               timestamp := now, msg_type := "request", iteration := s.current_iteration }],
          current_agent := .evaluator,
          current_phase := some "evaluation",
          current_iteration := s.current_iteration + 1 }
      else
        { s with
          messages := s.messages ++
            [{ from_agent := .coordinator, to_agent := some .researcher,
               content := "Let" ++ sq ++ "s explore the problem space further. Please provide more detailed research.",
               timestamp := now, msg_type := "request", iteration := s.current_iteration }],
          current_agent := .researcher,
          current_phase := some "research",
          current_iteration := s.current_iteration + 1 }
  else
    { s with
      solution := some (finalSolution s),
      messages := s.messages ++
        [{ from_agent := .coordinator, to_agent := some .evaluator,
           content := "Please evaluate this final solution:\n\n" ++ finalSolution s,
           timestamp := now, msg_type := "request", iteration := s.current_iteration }],
      current_iteration := s.current_iteration + 1,
      current_agent := .evaluator,
      current_phase := some "final_evaluation" }

/-- The research text produced by `researcher_agent` (lines 255-299): the
onboarding templates when the task mentions onboarding, the generic
templates otherwise. -/
def researchText (task : String) (current_iteration : Int) : String :=
  if strContains (lowerStr task) "onboarding" then
    if current_iteration ≤ 1 then
      "Initial research on " ++ sq ++ task ++ sq ++ ":\n\n" ++
      "1. Key aspects of employee onboarding:\n" ++
      "   - Administrative processes (paperwork, IT setup, etc.)\n" ++
      "   - Cultural integration and company values communication\n" ++
      "   - Role-specific training and knowledge transfer\n\n" ++
      "2. Potential approaches:\n" ++
      "   - Approach A: Digital-first onboarding with minimal in-person components\n" ++
      "   - Approach B: High-touch mentorship model with extensive shadowing\n" ++
      "   - Approach C: Hybrid approach with digital tools and structured in-person activities"
    else
      "Additional research on " ++ sq ++ task ++ sq ++ ":\n\n" ++
      "3. Detailed analysis of approaches:\n" ++
      "   - Digital-first strengths: Scalability, consistency, self-paced learning\n" ++
      "   - Mentorship strengths: Better cultural integration, personalized experience\n" ++
      "   - Hybrid strengths: Balance of efficiency and personalization\n\n" ++
      "4. Industry benchmarks:\n" ++
      "   - Companies with similar hybrid systems report 65% faster time-to-productivity\n" ++
      "   - Retention rates improve 40% with structured mentorship components\n\n" ++
      "5. Recommended approach: Hybrid system with digital core and structured mentorship"
  else
    if current_iteration ≤ 1 then
      "Initial research on " ++ sq ++ task ++ sq ++ ":\n\n" ++
      "1. Key aspects of the problem:\n" ++
      "   - The problem involves multiple stakeholders\n" ++
      "   - There are technical and non-technical components\n" ++
      "   - Time constraints will affect the solution\n\n" ++
      "2. Potential approaches:\n" ++
      "   - Approach A: Quick implementation, moderate results\n" ++
      "   - Approach B: Longer timeline, more comprehensive\n" ++
      "   - Approach C: Hybrid solution with phased delivery"
    else
      "Additional research on " ++ sq ++ task ++ sq ++ ":\n\n" ++
      "3. Detailed analysis of approaches:\n" ++
      "   - Approach A strengths: faster implementation, lower cost\n" ++
      "   - Approach B strengths: more complete solution, better long-term results\n" ++
      "   - Approach C strengths: balances time constraints with solution quality\n\n" ++
      "4. Related case studies:\n" ++
      "   - Case Study X demonstrated a 40% improvement using a hybrid approach\n" ++
      "   - Case Study Y showed technical challenges with rapid implementation\n\n" ++
      "5. Recommended approach based on research: Approach C (Hybrid solution)"

/-- `researcher_agent` (lines 235-315). -/
def researcher_agent (s : MultiAgentState) : MultiAgentState :=
  { s with
    messages := s.messages ++
      [{ from_agent := .researcher, to_agent := some .coordinator,
         content := researchText s.task s.current_iteration,
         timestamp := now, msg_type := "response", iteration := s.current_iteration - 1 }],
    current_agent := .coordinator }

/-- The critique text produced by `critic_agent` (lines 340-378). -/
def critiqueText (task : String) : String :=
  if strContains (lowerStr task) "onboarding" then
    "Critique of the onboarding research:\n\n" ++
    "Strengths:\n" ++
    "- Comprehensive consideration of multiple onboarding dimensions\n" ++
    "- Evidence-based comparison of different approaches\n" ++
    "- Clear recommendations with supporting data\n\n" ++
    "Weaknesses:\n" ++
    "- Insufficient attention to department-specific needs\n" ++
    "- Limited discussion of cost implications and ROI\n" ++
    "- No consideration of remote vs. in-office employee differences\n\n" ++
    "Suggestions for improvement:\n" ++
    "1. Develop department-specific onboarding modules within the hybrid framework\n" ++
    "2. Add cost analysis for each approach with expected ROI calculations\n" ++
    "3. Include specific adaptations for remote employees\n" ++
    "4. Consider phased implementation timeline with clear milestones\n\n" ++
    "Recommended focus: Develop a customizable hybrid system with clear ROI metrics and remote employee considerations."
  else
    "Critique of the research:\n\n" ++
    "Strengths:\n" ++
    "- Good identification of multiple approaches\n" ++
    "- Consideration of stakeholder needs\n" ++
    "- Evidence-based recommendations\n\n" ++
    "Weaknesses:\n" ++
    "- Insufficient detail on implementation steps\n" ++
    "- Limited consideration of resource constraints\n" ++
    "- Missing risk assessment for each approach\n\n" ++
    "Suggestions for improvement:\n" ++
    "1. Develop a more detailed implementation plan for the hybrid approach\n" ++
    "2. Add a section on required resources and potential constraints\n" ++
    "3. Include a risk assessment and mitigation strategies\n" ++
    "4. Consider a phased implementation with clear milestones\n\n" ++
    "Recommended focus: Develop a phased implementation plan with risk mitigation strategies."

/-- `critic_agent` (lines 318-394). -/
def critic_agent (s : MultiAgentState) : MultiAgentState :=
  { s with
    messages := s.messages ++
      [{ from_agent := .critic, to_agent := some .coordinator,
         content := critiqueText s.task,
         timestamp := now, msg_type := "response", iteration := s.current_iteration - 1 }],
    current_agent := .coordinator }

/-- The implementation plan text produced by `executor_agent`
(lines 419-476). -/
def solutionText (task : String) : String :=
  if strContains (lowerStr task) "onboarding" then
    "Implementation plan for employee onboarding system:\n\n" ++
    "Phase 1: Digital Foundation (Weeks 1-4)\n" ++
    "- Action 1.1: Select and customize digital onboarding platform\n" ++
    "- Action 1.2: Develop core modules (company overview, policies, benefits)\n" ++
    "- Action 1.3: Create department-specific content templates\n" ++
    "- Action 1.4: Set up automated workflows for paperwork and IT provisioning\n" ++
    "- Milestone: Digital platform ready for initial testing\n\n" ++
    "Phase 2: Mentorship Structure (Weeks 5-8)\n" ++
    "- Action 2.1: Develop mentor selection criteria and training\n" ++
    "- Action 2.2: Create structured shadowing schedules by department\n" ++
    "- Action 2.3: Build check-in templates and milestone tracking\n" ++
    "- Action 2.4: Implement feedback mechanisms for continuous improvement\n" ++
    "- Milestone: Mentorship program documented and ready for launch\n\n" ++
    "Phase 3: Integration and Rollout (Weeks 9-12)\n" ++
    "- Action 3.1: Integrate digital platform with mentorship program\n" ++
    "- Action 3.2: Pilot with 5 new hires across departments\n" ++
    "- Action 3.3: Refine based on feedback\n" ++
    "- Action 3.4: Full deployment with ongoing monitoring\n" ++
    "- Milestone: Complete system deployed company-wide\n\n" ++
    "Special Adaptations for Remote Employees:\n" ++
    "- Virtual office tours and team introductions\n" ++
    "- Scheduled video check-ins to replace in-person shadowing\n" ++
    "- Digital collaboration tools training\n\n" ++
    "Cost and ROI:\n" ++
    "- Implementation cost: $X for platform, $Y for staff time\n" ++
    "- Expected ROI: 35% reduction in time-to-productivity, 25% improvement in 90-day retention"
  else
    "Implementation plan for " ++ sq ++ task ++ sq ++ ":\n\n" ++
    "Phase 1: Setup and Initial Implementation (Weeks 1-2)\n" ++
    "- Action 1.1: Establish project team and roles\n" ++
    "- Action 1.2: Define success metrics and KPIs\n" ++
    "- Action 1.3: Set up basic infrastructure\n" ++
    "- Milestone: Basic framework operational\n\n" ++
    "Phase 2: Core Development (Weeks 3-6)\n" ++
    "- Action 2.1: Implement primary functionality\n" ++
    "- Action 2.2: Develop integration points\n" ++
    "- Action 2.3: Create monitoring system\n" ++
    "- Milestone: Core system operational\n\n" ++
    "Phase 3: Refinement and Expansion (Weeks 7-10)\n" ++
    "- Action 3.1: Add advanced features\n" ++
    "- Action 3.2: Optimize performance\n" ++
    "- Action 3.3: Implement feedback from early phases\n" ++
    "- Milestone: Complete solution deployed\n\n" ++
    "Risk Mitigation:\n" ++
    "- Risk 1: Resource constraints → Prioritization framework established\n" ++
    "- Risk 2: Technical challenges → Expert advisors identified\n" ++
    "- Risk 3: Timeline pressure → Buffer periods built into schedule"

/-- `executor_agent` (lines 397-492). -/
def executor_agent (s : MultiAgentState) : MultiAgentState :=
  { s with
    messages := s.messages ++
      [{ from_agent := .executor, to_agent := some .coordinator,
         content := solutionText s.task,
         timestamp := now, msg_type := "response", iteration := s.current_iteration - 1 }],
    current_agent := .coordinator }

/-- The `evaluation` metric dict of `evaluator_agent` (lines 521-538),
onboarding variant. -/
def evaluationMetricsOnboarding : List (String × ℚ) :=
  [("comprehensiveness", 88/100), ("feasibility", 82/100), ("clarity", 90/100),
   ("cost_effectiveness", 75/100), ("adaptability", 85/100), ("overall_quality", 84/100)]

/-- The `evaluation` metric dict of `evaluator_agent` (lines 521-538),
generic variant. -/
def evaluationMetricsGeneric : List (String × ℚ) :=
  [("comprehensiveness", 85/100), ("feasibility", 78/100), ("clarity", 91/100),
   ("risk_management", 72/100), ("resource_allocation", 80/100), ("overall_quality", 82/100)]

/-- The evaluation text of `evaluator_agent` (lines 541-569); the loop over
the constant metric dict and the `:.2f` / `:.1f` formats are inlined. -/
def evaluationText (task : String) : String :=
  "Solution Evaluation:\n\n" ++
  (if strContains (lowerStr task) "onboarding" then
    "Strengths:\n" ++
    "- Comprehensive phased approach with clear milestones\n" ++
    "- Good balance of digital and human elements\n" ++
    "- Specific adaptations for remote employees\n" ++
    "- Clear ROI metrics identified\n\n" ++
    "Areas for improvement:\n" ++
    "- Consider adding cross-departmental collaboration opportunities\n" ++
    "- More detail needed on mentor selection and training\n" ++
    "- Consider long-term maintenance of the system\n\n" ++
    "Metrics:\n" ++
    "- Comprehensiveness: 0.88/1.00\n" ++
    "- Feasibility: 0.82/1.00\n" ++
    "- Clarity: 0.90/1.00\n" ++
    "- Cost Effectiveness: 0.75/1.00\n" ++
    "- Adaptability: 0.85/1.00\n" ++
    "- Overall Quality: 0.84/1.00\n" ++
    "\nOverall assessment: 84.0% optimal solution"
  else
    "Strengths:\n" ++
    "- Well-structured phased approach\n" ++
    "- Clear milestones and deliverables\n" ++
    "- Good consideration of risks\n\n" ++
    "Areas for improvement:\n" ++
    "- More detail needed on specific technologies\n" ++
    "- Budget estimates could be more precise\n" ++
    "- Additional contingency planning recommended\n\n" ++
    "Metrics:\n" ++
    "- Comprehensiveness: 0.85/1.00\n" ++
    "- Feasibility: 0.78/1.00\n" ++
    "- Clarity: 0.91/1.00\n" ++
    "- Risk Management: 0.72/1.00\n" ++
    "- Resource Allocation: 0.80/1.00\n" ++
    "- Overall Quality: 0.82/1.00\n" ++
    "\nOverall assessment: 82.0% optimal solution")

/-- `evaluator_agent` (lines 495-591).  It sets `convergence_score = 1.0`
only when `current_phase == "final_evaluation"`, otherwise `0.5`, and
returns control to the Coordinator. -/
def evaluator_agent (s : MultiAgentState) : MultiAgentState :=
  { s with
    messages := s.messages ++
      [{ from_agent := .evaluator, to_agent := some .coordinator,
         content := evaluationText s.task,
         timestamp := now, msg_type := "response", iteration := s.current_iteration - 1 }],
    evaluation := some (if strContains (lowerStr s.task) "onboarding" then
      evaluationMetricsOnboarding else evaluationMetricsGeneric),
    convergence_score :=
      if s.current_phase = some "final_evaluation" then 1 else qhalf,
    current_agent := .coordinator }

/-- `router` (lines 598-600). -/
def router (s : MultiAgentState) : AgentRole := s.current_agent

/-- `decide_if_finished` (lines 607-617). -/
def decide_if_finished (s : MultiAgentState) : Bool :=
  if s.convergence_score ≥ q09 then true
  else if s.current_iteration ≥ s.max_iterations then true
  else false

/-- One dispatch step of the manual driver loop of
`run_multi_agent_system` (lines 730-742): route on `current_agent` and
invoke the corresponding agent function. -/
def stepAgent (s : MultiAgentState) : MultiAgentState :=
  match router s with
  | .coordinator => coordinator_agent s
  | .researcher => researcher_agent s
  | .critic => critic_agent s
  | .executor => executor_agent s
  | .evaluator => evaluator_agent s

/-- The `while not decide_if_finished(current_state)` loop (line 730),
with explicit fuel.  `runLoop_finished` shows the result is a fixed point
once the guard holds, so any sufficient fuel computes the loop's limit. -/
def runLoop : Nat → MultiAgentState → MultiAgentState
  | 0, s => s
  | n + 1, s => if decide_if_finished s then s else runLoop n (stepAgent s)

/-- Ghost observer: how many of the dispatch steps taken by `runLoop` with
the given fuel are Coordinator turns. -/
def coordTurns : Nat → MultiAgentState → Nat
  | 0, _ => 0
  | n + 1, s =>
    if decide_if_finished s then 0
    else (if s.current_agent = .coordinator then 1 else 0) + coordTurns n (stepAgent s)

/-- The initial state built at the top of `run_multi_agent_system`
(lines 712-719). -/
def initState (task : String) (max_iterations : Int) : MultiAgentState :=
  { task := task, messages := [], artifacts := [], current_agent := .coordinator,
    current_phase := none, convergence_score := 0, solution := none,
    evaluation := none, max_iterations := max_iterations, current_iteration := 0 }

/-- Fuel bound sufficient for the driver loop: each cycle is one
Coordinator turn plus at most one worker turn. -/
def runFuel (max_iterations : Int) : Nat := 2 * max_iterations.toNat + 2

/-- `run_multi_agent_system` (lines 709-750), printing dropped. -/
def run_multi_agent_system (task : String) (max_iterations : Int) : MultiAgentState :=
  runLoop (runFuel max_iterations) (initState task max_iterations)

/-- Invariant of the driver loop: the score is one of the two values the
code can have produced so far, and the `final_evaluation` phase is only
ever entered together with an exhausted iteration budget. -/
def scoreInv (s : MultiAgentState) : Prop :=
  (s.convergence_score = 0 ∨ s.convergence_score = qhalf) ∧
  (s.current_phase = some "final_evaluation" → s.current_iteration ≥ s.max_iterations)

end Adv

/-- A lab state past the budget with no evaluation: exercises the budget
arm of the lab `decide_if_finished`. -/
def labStateIter6 : Lab.MultiAgentState :=
  { task := "", messages := [], artifacts := [], current_agent := some .coordinator,
    convergence_score := 0, solution := none, evaluation := none,
    max_iterations := 5, current_iteration := 6 }

/-- A fresh lab state (iteration 0), as `main` initializes it. -/
def labState0 : Lab.MultiAgentState :=
  { task := "X", messages := [], artifacts := [], current_agent := some .coordinator,
    convergence_score := 0, solution := none, evaluation := none,
    max_iterations := 5, current_iteration := 0 }

/-- A lab state in a middle iteration with an unanswered Coordinator
request from the previous cycle. -/
def labStateMissing : Lab.MultiAgentState :=
  { task := "t",
    messages := [{ from_agent := .coordinator, to_agent := some .researcher,
                   content := "req", timestamp := now, msg_type := "request", iteration := 1 }],
    artifacts := [], current_agent := some .coordinator,
    convergence_score := 0, solution := none, evaluation := none,
    max_iterations := 9, current_iteration := 2 }

/-- A lab state in a middle iteration whose previous cycle is complete
(no pending requests at all). -/
def labStateMid : Lab.MultiAgentState :=
  { task := "t", messages := [], artifacts := [], current_agent := some .coordinator,
    convergence_score := 0, solution := none, evaluation := none,
    max_iterations := 9, current_iteration := 3 }

/-- A lab state at the final iteration with two executor responses on the
log. -/
def labStateFinal : Lab.MultiAgentState :=
  { task := "t",
    messages := [{ from_agent := .executor, to_agent := some .coordinator,
                   content := "planA", timestamp := now, msg_type := "response", iteration := 1 },
                 { from_agent := .researcher, to_agent := some .coordinator,
                   content := "facts", timestamp := now, msg_type := "response", iteration := 2 },
                 { from_agent := .executor, to_agent := some .coordinator,
                   content := "planB", timestamp := now, msg_type := "response", iteration := 3 }],
    artifacts := [], current_agent := some .coordinator,
    convergence_score := 0, solution := none, evaluation := none,
    max_iterations := 5, current_iteration := 4 }

/-- An advanced state in a middle iteration (remainder 1 modulo 4). -/
def advStateMid : Adv.MultiAgentState :=
  { task := "t", messages := [], artifacts := [], current_agent := .coordinator,
    current_phase := some "research", convergence_score := 0, solution := none,
    evaluation := none, max_iterations := 9, current_iteration := 5 }

/-- An advanced state at the final iteration with no executor responses. -/
def advStateFinal : Adv.MultiAgentState :=
  { task := "t", messages := [], artifacts := [], current_agent := .coordinator,
    current_phase := some "execution", convergence_score := 0, solution := none,
    evaluation := none, max_iterations := 5, current_iteration := 4 }

/-- An advanced state about to take an intermediate (non-final) Evaluator
turn. -/
def advStateEval : Adv.MultiAgentState :=
  { task := "t", messages := [], artifacts := [], current_agent := .evaluator,
    current_phase := some "evaluation", convergence_score := 0, solution := none,
    evaluation := none, max_iterations := 9, current_iteration := 4 }

-- ===================================================================
-- Helper lemmas
-- ===================================================================


theorem q09_eq : q09 = 9/10 := by
  unfold q09; rw [Rat.mk'_eq_divInt, Rat.divInt_eq_div]; norm_num

theorem qhalf_eq : qhalf = 1/2 := by
  unfold qhalf; rw [Rat.mk'_eq_divInt, Rat.divInt_eq_div]; norm_num

theorem adv_coord_iter (s : Adv.MultiAgentState) :
    (Adv.coordinator_agent s).current_iteration = s.current_iteration + 1 := by
  unfold Adv.coordinator_agent; repeat' split
  all_goals rfl

theorem adv_coord_conv (s : Adv.MultiAgentState) :
    (Adv.coordinator_agent s).convergence_score = s.convergence_score := by
  unfold Adv.coordinator_agent; repeat' split
  all_goals rfl

theorem adv_coord_max (s : Adv.MultiAgentState) :
    (Adv.coordinator_agent s).max_iterations = s.max_iterations := by
  unfold Adv.coordinator_agent; repeat' split
  all_goals rfl

theorem adv_coord_agent_ne (s : Adv.MultiAgentState) :
    (Adv.coordinator_agent s).current_agent ≠ .coordinator := by
  unfold Adv.coordinator_agent; repeat' split
  all_goals simp

theorem adv_coord_phase_ne_final (s : Adv.MultiAgentState)
    (h : s.current_iteration = 0 ∨ s.current_iteration < s.max_iterations - 1) :
    (Adv.coordinator_agent s).current_phase ≠ some "final_evaluation" := by
  unfold Adv.coordinator_agent; repeat' split
  all_goals simp_all

theorem adv_coord_phase_final_iter (s : Adv.MultiAgentState) :
    (Adv.coordinator_agent s).current_phase = some "final_evaluation" →
    (Adv.coordinator_agent s).current_iteration ≥ (Adv.coordinator_agent s).max_iterations := by
  unfold Adv.coordinator_agent
  repeat' split
  all_goals intro h
  all_goals simp_all

theorem adv_decide_iff (s : Adv.MultiAgentState) :
    Adv.decide_if_finished s = true ↔
      (s.convergence_score ≥ q09 ∨ s.current_iteration ≥ s.max_iterations) := by
  unfold Adv.decide_if_finished
  repeat' split
  all_goals simp_all

theorem adv_step_coord (s : Adv.MultiAgentState) (h : s.current_agent = .coordinator) :
    Adv.stepAgent s = Adv.coordinator_agent s := by
  unfold Adv.stepAgent Adv.router; rw [h]

theorem adv_worker_step (s : Adv.MultiAgentState) (h : s.current_agent ≠ .coordinator) :
    (Adv.stepAgent s).current_iteration = s.current_iteration ∧
    (Adv.stepAgent s).max_iterations = s.max_iterations ∧
    (Adv.stepAgent s).current_agent = .coordinator ∧
    ((Adv.stepAgent s).convergence_score = s.convergence_score ∨
     (Adv.stepAgent s).convergence_score =
       (if s.current_phase = some "final_evaluation" then 1 else qhalf)) := by
  unfold Adv.stepAgent Adv.router
  cases hc : s.current_agent with
  | coordinator => exact absurd hc h
  | researcher => exact ⟨rfl, rfl, rfl, Or.inl rfl⟩
  | critic => exact ⟨rfl, rfl, rfl, Or.inl rfl⟩
  | executor => exact ⟨rfl, rfl, rfl, Or.inl rfl⟩
  | evaluator => exact ⟨rfl, rfl, rfl, Or.inr rfl⟩

theorem runLoop_zero (s : Adv.MultiAgentState) : Adv.runLoop 0 s = s := rfl

theorem runLoop_succ (n : Nat) (s : Adv.MultiAgentState) :
    Adv.runLoop (n + 1) s =
      if Adv.decide_if_finished s then s else Adv.runLoop n (Adv.stepAgent s) := rfl

theorem coordTurns_succ (n : Nat) (s : Adv.MultiAgentState) :
    Adv.coordTurns (n + 1) s =
      if Adv.decide_if_finished s then 0
      else (if s.current_agent = .coordinator then 1 else 0) + Adv.coordTurns n (Adv.stepAgent s) := rfl

theorem runLoop_finished (n : Nat) (s : Adv.MultiAgentState)
    (h : Adv.decide_if_finished s = true) : Adv.runLoop n s = s := by
  cases n with
  | zero => rfl
  | succ n => rw [runLoop_succ, if_pos h]

theorem coordTurns_finished (n : Nat) (s : Adv.MultiAgentState)
    (h : Adv.decide_if_finished s = true) : Adv.coordTurns n s = 0 := by
  cases n with
  | zero => rfl
  | succ n => rw [coordTurns_succ, if_pos h]

theorem runLoop_add (n m : Nat) (s : Adv.MultiAgentState) :
    Adv.runLoop (n + m) s = Adv.runLoop m (Adv.runLoop n s) := by
  induction n generalizing s with
  | zero => rw [Nat.zero_add]; rfl
  | succ n ih =>
    rw [Nat.succ_add, runLoop_succ, runLoop_succ]
    by_cases h : Adv.decide_if_finished s = true
    · rw [if_pos h, if_pos h, runLoop_finished m s h]
    · rw [if_neg h, if_neg h, ih]

theorem run_progress (d : Nat) :
    ∀ (s : Adv.MultiAgentState) (fuel : Nat),
    s.current_agent = .coordinator →
    (s.convergence_score = 0 ∨ s.convergence_score = qhalf) →
    s.current_iteration < s.max_iterations →
    s.max_iterations ≤ s.current_iteration + d →
    2 * d ≤ fuel →
    ((Adv.runLoop fuel s).current_iteration = s.max_iterations ∧
     (Adv.runLoop fuel s).max_iterations = s.max_iterations ∧
     ((Adv.runLoop fuel s).convergence_score = 0 ∨ (Adv.runLoop fuel s).convergence_score = qhalf) ∧
     Adv.decide_if_finished (Adv.runLoop fuel s) = true ∧
     Adv.coordTurns fuel s = (s.max_iterations - s.current_iteration).toNat) := by
  induction d with
  | zero => intro s fuel _ _ hlt hle _; omega
  | succ d ih =>
    intro s fuel hagent hconv hlt hle hfuel
    have hconvlt : s.convergence_score < q09 := by
      rcases hconv with h | h <;> rw [h] <;> decide
    have hfin : Adv.decide_if_finished s = false := by
      cases hf : Adv.decide_if_finished s with
      | false => rfl
      | true =>
        rcases (adv_decide_iff s).mp hf with h | h
        · exact absurd h (not_le.mpr hconvlt)
        · omega
    obtain ⟨f, rfl⟩ : ∃ f, fuel = f + 1 := ⟨fuel - 1, by omega⟩
    have hstep : Adv.runLoop (f + 1) s = Adv.runLoop f (Adv.coordinator_agent s) := by
      rw [runLoop_succ, hfin, adv_step_coord s hagent]; simp
    have hturn : Adv.coordTurns (f + 1) s = 1 + Adv.coordTurns f (Adv.coordinator_agent s) := by
      rw [coordTurns_succ, hfin, adv_step_coord s hagent]; simp [hagent]
    set c := Adv.coordinator_agent s with hc
    have hciter : c.current_iteration = s.current_iteration + 1 := adv_coord_iter s
    have hcmax : c.max_iterations = s.max_iterations := adv_coord_max s
    have hcconv : c.convergence_score = s.convergence_score := adv_coord_conv s
    by_cases hlast : s.max_iterations ≤ s.current_iteration + 1
    · have hfinc : Adv.decide_if_finished c = true := by
        apply (adv_decide_iff c).mpr
        right; omega
      rw [hstep, runLoop_finished f c hfinc, hturn, coordTurns_finished f c hfinc]
      refine ⟨by omega, by omega, ?_, hfinc, by omega⟩
      rw [hcconv]; exact hconv
    · have h2 : s.current_iteration + 1 < s.max_iterations := by omega
      have hfinc : Adv.decide_if_finished c = false := by
        cases hf : Adv.decide_if_finished c with
        | false => rfl
        | true =>
          rcases (adv_decide_iff c).mp hf with h | h
          · rw [hcconv] at h; exact absurd h (not_le.mpr hconvlt)
          · omega
      obtain ⟨g, rfl⟩ : ∃ g, f = g + 1 := ⟨f - 1, by omega⟩
      have hcagent : c.current_agent ≠ .coordinator := adv_coord_agent_ne s
      have hw := adv_worker_step c hcagent
      have hphase : c.current_phase ≠ some "final_evaluation" :=
        adv_coord_phase_ne_final s (by omega)
      have hwconv : (Adv.stepAgent c).convergence_score = 0 ∨
          (Adv.stepAgent c).convergence_score = qhalf := by
        rcases hw.2.2.2 with h | h
        · rw [h, hcconv]; exact hconv
        · rw [h, if_neg hphase]; exact Or.inr rfl
      have hstep2 : Adv.runLoop (g + 1) c = Adv.runLoop g (Adv.stepAgent c) := by
        rw [runLoop_succ, hfinc]; simp
      have hturn2 : Adv.coordTurns (g + 1) c = Adv.coordTurns g (Adv.stepAgent c) := by
        rw [coordTurns_succ, hfinc]; simp [if_neg hcagent]
      have hwiter : (Adv.stepAgent c).current_iteration = s.current_iteration + 1 := by
        rw [hw.1, hciter]
      have hwmax : (Adv.stepAgent c).max_iterations = s.max_iterations := by
        rw [hw.2.1, hcmax]
      have := ih (Adv.stepAgent c) g hw.2.2.1 hwconv (by omega) (by omega) (by omega)
      rw [hstep, hstep2, hturn, hturn2]
      refine ⟨by omega, by omega, this.2.2.1, this.2.2.2.1, by omega⟩


-- ============ scoreInv machinery ============

theorem scoreInv_step (s : Adv.MultiAgentState) (h : Adv.scoreInv s) :
    Adv.scoreInv (Adv.runLoop 1 s) ∧
      s.convergence_score ≤ (Adv.runLoop 1 s).convergence_score := by
  rw [show (1 : Nat) = 0 + 1 from rfl, runLoop_succ]
  by_cases hf : Adv.decide_if_finished s = true
  · rw [if_pos hf]; exact ⟨h, le_refl _⟩
  · rw [if_neg hf, runLoop_zero]
    by_cases hagent : s.current_agent = .coordinator
    · rw [adv_step_coord s hagent]
      refine ⟨⟨?_, adv_coord_phase_final_iter s⟩, ?_⟩
      · rw [adv_coord_conv]; exact h.1
      · rw [adv_coord_conv]
    · have hw := adv_worker_step s hagent
      have hphase : s.current_phase ≠ some "final_evaluation" := by
        intro hp
        have : s.current_iteration ≥ s.max_iterations := h.2 hp
        exact hf ((adv_decide_iff s).mpr (Or.inr this))
      have hwphase : (Adv.stepAgent s).current_phase = s.current_phase := by
        unfold Adv.stepAgent Adv.router
        cases hc : s.current_agent
        · exact absurd hc hagent
        all_goals rfl
      refine ⟨⟨?_, ?_⟩, ?_⟩
      · rcases hw.2.2.2 with hcv | hcv
        · rw [hcv]; exact h.1
        · rw [hcv, if_neg hphase]; exact Or.inr rfl
      · rw [hwphase, hw.1, hw.2.1]; exact h.2
      · rcases hw.2.2.2 with hcv | hcv
        · rw [hcv]
        · rw [hcv, if_neg hphase]
          rcases h.1 with h0 | h0 <;> rw [h0]
          all_goals decide

theorem scoreInv_trace (task : String) (m : Int) (n : Nat) :
    Adv.scoreInv (Adv.runLoop n (Adv.initState task m)) := by
  induction n with
  | zero =>
    rw [runLoop_zero]
    exact ⟨Or.inl rfl, by simp [Adv.initState]⟩
  | succ n ih =>
    rw [runLoop_add n 1]
    exact (scoreInv_step _ ih).1

theorem conv_mono (task : String) (m : Int) (n : Nat) :
    (Adv.runLoop n (Adv.initState task m)).convergence_score ≤
      (Adv.runLoop (n + 1) (Adv.initState task m)).convergence_score := by
  rw [runLoop_add n 1]
  exact (scoreInv_step _ (scoreInv_trace task m n)).2

-- ============ Lab lemmas ============

theorem lab_decide_iff (s : Lab.MultiAgentState) :
    Lab.decide_if_finished s = true ↔
      (s.convergence_score ≥ q09 ∨
        (s.current_iteration > s.max_iterations ∧ s.evaluation ≠ none)) := by
  unfold Lab.decide_if_finished
  repeat' split
  all_goals simp_all [Option.isSome_iff_ne_none]

theorem lab_coord_final (s : Lab.MultiAgentState)
    (h0 : s.current_iteration ≠ 0) (h1 : ¬(s.current_iteration < s.max_iterations - 1)) :
    (Lab.coordinator_agent s).current_agent = some .evaluator ∧
    (Lab.coordinator_agent s).solution = some (Lab.finalSolution s) ∧
    (Lab.coordinator_agent s).messages = s.messages ++
      [{ from_agent := .coordinator, to_agent := some .evaluator,
         content := "Please evaluate this solution:\n\n" ++ Lab.finalSolution s,
         timestamp := now, msg_type := "request", iteration := s.current_iteration }] := by
  unfold Lab.coordinator_agent
  rw [if_neg h0, if_neg h1]
  exact ⟨rfl, rfl, rfl⟩

theorem adv_coord_final (s : Adv.MultiAgentState)
    (h0 : s.current_iteration ≠ 0) (h1 : ¬(s.current_iteration < s.max_iterations - 1)) :
    (Adv.coordinator_agent s).current_agent = .evaluator ∧
    (Adv.coordinator_agent s).current_phase = some "final_evaluation" ∧
    (Adv.coordinator_agent s).solution = some (Adv.finalSolution s) ∧
    (Adv.coordinator_agent s).messages = s.messages ++
      [{ from_agent := .coordinator, to_agent := some .evaluator,
         content := "Please evaluate this final solution:\n\n" ++ Adv.finalSolution s,
         timestamp := now, msg_type := "request", iteration := s.current_iteration }] := by
  unfold Adv.coordinator_agent
  rw [if_neg h0, if_neg h1]
  exact ⟨rfl, rfl, rfl, rfl⟩

theorem lab_coord_middle (s : Lab.MultiAgentState)
    (h0 : s.current_iteration ≠ 0) (h1 : s.current_iteration < s.max_iterations - 1)
    (hm : Lab.needed_not_met s = false) :
    (s.current_iteration % 3 = 0 → (Lab.coordinator_agent s).current_agent = some .researcher) ∧
    (s.current_iteration % 3 = 1 → (Lab.coordinator_agent s).current_agent = some .critic) ∧
    (s.current_iteration % 3 = 2 → (Lab.coordinator_agent s).current_agent = some .executor) := by
  unfold Lab.coordinator_agent
  rw [if_neg h0, if_pos h1, if_neg (by simp [hm] : ¬(Lab.needed_not_met s = true))]
  refine ⟨fun hp => ?_, fun hp => ?_, fun hp => ?_⟩
  · rw [if_pos hp]
  · rw [if_neg (by omega), if_pos hp]
  · rw [if_neg (by omega), if_neg (by omega)]

theorem lab_coord_missing (s : Lab.MultiAgentState)
    (h0 : s.current_iteration ≠ 0) (h1 : s.current_iteration < s.max_iterations - 1)
    (hm : Lab.needed_not_met s = true) :
    (Lab.coordinator_agent s).messages = s.messages ++ (Lab.missingResponses s).map (fun agent =>
      { from_agent := .coordinator, to_agent := agent,
        content := "Following up on my previous request. Please respond.",
        timestamp := now, msg_type := "request", iteration := s.current_iteration }) ∧
    (Lab.coordinator_agent s).current_agent = (Lab.missingResponses s).headI ∧
    Lab.missingResponses s ≠ [] := by
  unfold Lab.coordinator_agent
  rw [if_neg h0, if_pos h1, if_pos hm]
  refine ⟨rfl, rfl, ?_⟩
  unfold Lab.needed_not_met at hm
  simp only [Bool.and_eq_true, Bool.not_eq_true'] at hm
  obtain ⟨hne, hall⟩ := hm
  rw [List.all_eq_false] at hall
  obtain ⟨x, hx, hpx⟩ := hall
  have : x ∈ Lab.missingResponses s := by
    unfold Lab.missingResponses
    rw [List.mem_filter]
    exact ⟨hx, by simp [hpx]⟩
  exact List.ne_nil_of_mem this

theorem lab_worker_resp (r : AgentRole) (hr : r ≠ .coordinator) (s : Lab.MultiAgentState) :
    ∃ content, (Lab.agentFn r s).messages = s.messages ++
      [{ from_agent := r, to_agent := some .coordinator, content := content,
         timestamp := now, msg_type := "response", iteration := s.current_iteration - 1 }] ∧
      (Lab.agentFn r s).current_iteration = s.current_iteration := by
  cases r with
  | coordinator => exact absurd rfl hr
  | researcher => exact ⟨_, rfl, rfl⟩
  | critic => exact ⟨_, rfl, rfl⟩
  | executor => exact ⟨_, rfl, rfl⟩
  | evaluator => exact ⟨_, rfl, rfl⟩

theorem lab_missing_ne_nil (s : Lab.MultiAgentState)
    (hm : Lab.needed_not_met s = true) : Lab.missingResponses s ≠ [] := by
  unfold Lab.needed_not_met at hm
  simp only [Bool.and_eq_true, Bool.not_eq_true'] at hm
  obtain ⟨hne, hall⟩ := hm
  rw [List.all_eq_false] at hall
  obtain ⟨x, hx, hpx⟩ := hall
  have : x ∈ Lab.missingResponses s := by
    unfold Lab.missingResponses
    rw [List.mem_filter]
    exact ⟨hx, by simp [hpx]⟩
  exact List.ne_nil_of_mem this

theorem lab_coord_appends (s : Lab.MultiAgentState) :
    ∃ reqs, (Lab.coordinator_agent s).messages = s.messages ++ reqs ∧
      (∀ m ∈ reqs, m.from_agent = .coordinator ∧ m.msg_type = "request" ∧
        m.iteration = s.current_iteration) ∧
      (∀ r : AgentRole, (Lab.coordinator_agent s).current_agent = some r →
        ∃ m ∈ reqs, m.to_agent = some r) ∧
      (Lab.coordinator_agent s).current_iteration = s.current_iteration + 1 := by
  unfold Lab.coordinator_agent
  by_cases h0 : s.current_iteration = 0
  · rw [if_pos h0]
    refine ⟨_, rfl, ?_, ?_, rfl⟩
    · intro m hm
      simp only [List.mem_singleton] at hm
      subst hm
      exact ⟨rfl, rfl, rfl⟩
    · intro r hr
      have h' : some AgentRole.researcher = some r := hr
      exact ⟨_, List.mem_singleton_self _, h'⟩
  · rw [if_neg h0]
    by_cases h1 : s.current_iteration < s.max_iterations - 1
    · rw [if_pos h1]
      by_cases hm : Lab.needed_not_met s = true
      · rw [if_pos hm]
        refine ⟨_, rfl, ?_, ?_, rfl⟩
        · intro m hmm
          rw [List.mem_map] at hmm
          obtain ⟨a, _, rfl⟩ := hmm
          exact ⟨rfl, rfl, rfl⟩
        · intro r hr
          have h' : (Lab.missingResponses s).headI = some r := hr
          have hne := lab_missing_ne_nil s hm
          have hmem : (Lab.missingResponses s).headI ∈ Lab.missingResponses s := by
            obtain ⟨a, as, he⟩ := List.exists_cons_of_ne_nil hne
            rw [he]; simp
          exact ⟨_, List.mem_map_of_mem _ hmem, h'⟩
      · rw [if_neg hm]
        by_cases hp0 : s.current_iteration % 3 = 0
        · rw [if_pos hp0]
          refine ⟨_, rfl, ?_, ?_, rfl⟩
          · intro m hmm
            simp only [List.mem_singleton] at hmm
            subst hmm
            exact ⟨rfl, rfl, rfl⟩
          · intro r hr
            have h' : some AgentRole.researcher = some r := hr
            exact ⟨_, List.mem_singleton_self _, h'⟩
        · rw [if_neg hp0]
          by_cases hp1 : s.current_iteration % 3 = 1
          · rw [if_pos hp1]
            refine ⟨_, rfl, ?_, ?_, rfl⟩
            · intro m hmm
              simp only [List.mem_singleton] at hmm
              subst hmm
              exact ⟨rfl, rfl, rfl⟩
            · intro r hr
              have h' : some AgentRole.critic = some r := hr
              exact ⟨_, List.mem_singleton_self _, h'⟩
          · rw [if_neg hp1]
            refine ⟨_, rfl, ?_, ?_, rfl⟩
            · intro m hmm
              simp only [List.mem_singleton] at hmm
              subst hmm
              exact ⟨rfl, rfl, rfl⟩
            · intro r hr
              have h' : some AgentRole.executor = some r := hr
              exact ⟨_, List.mem_singleton_self _, h'⟩
    · rw [if_neg h1]
      refine ⟨_, rfl, ?_, ?_, rfl⟩
      · intro m hmm
        simp only [List.mem_singleton] at hmm
        subst hmm
        exact ⟨rfl, rfl, rfl⟩
      · intro r hr
        have h' : some AgentRole.evaluator = some r := hr
        exact ⟨_, List.mem_singleton_self _, h'⟩

theorem adv_coord_middle (s : Adv.MultiAgentState)
    (h0 : s.current_iteration ≠ 0) (h1 : s.current_iteration < s.max_iterations - 1) :
    (s.current_iteration % 4 = 0 → (Adv.coordinator_agent s).current_agent = .researcher) ∧
    (s.current_iteration % 4 = 1 → (Adv.coordinator_agent s).current_agent = .critic) ∧
    (s.current_iteration % 4 = 2 → (Adv.coordinator_agent s).current_agent = .executor) ∧
    (s.current_iteration % 4 = 3 → (Adv.coordinator_agent s).current_agent =
      (if (Adv.executionResults s).isEmpty then AgentRole.researcher else AgentRole.evaluator)) := by
  unfold Adv.coordinator_agent
  rw [if_neg h0, if_pos h1]
  refine ⟨fun hp => ?_, fun hp => ?_, fun hp => ?_, fun hp => ?_⟩
  · rw [if_pos hp]
  · rw [if_neg (by omega), if_pos hp]
  · rw [if_neg (by omega), if_neg (by omega), if_pos hp]
  · rw [if_neg (by omega), if_neg (by omega), if_neg (by omega)]
    by_cases he : (Adv.executionResults s).isEmpty
    · simp [he]
    · simp [he]

-- ===================================================================
-- Claim theorems
-- ===================================================================

/-- C1.  Claimed: `decide_if_finished` returns true iff
`convergence_score >= 0.9` or `current_iteration >= max_iterations`, with
no other condition involved.  This is exactly right for the advanced
implementation, but the lab implementation's budget arm requires the
strictly stronger `current_iteration > max_iterations` together with a
non-null `evaluation`.  This theorem proves the amended claim covering
both implementations. -/
theorem C1_termination_predicate :
    (∀ s : Adv.MultiAgentState, Adv.decide_if_finished s = true ↔
      (s.convergence_score ≥ 9/10 ∨ s.current_iteration ≥ s.max_iterations)) ∧
    (∀ s : Lab.MultiAgentState, Lab.decide_if_finished s = true ↔
      (s.convergence_score ≥ 9/10 ∨
        (s.current_iteration > s.max_iterations ∧ s.evaluation ≠ none))) := by
  constructor
  · intro s; rw [← q09_eq]; exact adv_decide_iff s
  · intro s; rw [← q09_eq]; exact lab_decide_iff s

/-- C1 counterexample: a lab state with score 0, iteration 6 and budget 5
(and no evaluation) satisfies `current_iteration >= max_iterations`, yet
the lab `decide_if_finished` returns false — refuting the claimed
equivalence as stated (`q09` is the threshold `0.9`). -/
theorem C1_counterexample :
    q09 = 9/10 ∧
    ¬(Lab.decide_if_finished labStateIter6 = true ↔
      (labStateIter6.convergence_score ≥ q09 ∨
        labStateIter6.current_iteration ≥ labStateIter6.max_iterations)) :=
  ⟨q09_eq, by decide⟩

/-- C2.  For every task and every `max_iterations >= 1` the orchestration
loop of `run_multi_agent_system` terminates (the result is a fixed point
of the loop: one more unit of fuel does not change it, and the guard
holds), after exactly `max_iterations` Coordinator turns, with the final
iteration counter equal to `max_iterations`; the convergence score indeed
never reaches 0.9 on this run. -/
theorem C2_run_terminates (task : String) (max_iterations : Int)
    (h : 1 ≤ max_iterations) :
    Adv.decide_if_finished (Adv.run_multi_agent_system task max_iterations) = true ∧
    Adv.runLoop (Adv.runFuel max_iterations + 1) (Adv.initState task max_iterations) =
      Adv.run_multi_agent_system task max_iterations ∧
    (Adv.run_multi_agent_system task max_iterations).current_iteration = max_iterations ∧
    (Adv.run_multi_agent_system task max_iterations).max_iterations = max_iterations ∧
    (Adv.run_multi_agent_system task max_iterations).convergence_score < 9/10 ∧
    Adv.coordTurns (Adv.runFuel max_iterations) (Adv.initState task max_iterations) =
      max_iterations.toNat := by
  have e1 : (Adv.initState task max_iterations).current_iteration = 0 := rfl
  have e2 : (Adv.initState task max_iterations).max_iterations = max_iterations := rfl
  obtain ⟨hiter, hmax, hconv, hfin, hturn⟩ :=
    run_progress max_iterations.toNat (Adv.initState task max_iterations)
      (Adv.runFuel max_iterations) rfl (Or.inl rfl)
      (by rw [e1, e2]; omega) (by rw [e1, e2]; omega)
      (by unfold Adv.runFuel; omega)
  refine ⟨hfin, ?_, ?_, ?_, ?_, ?_⟩
  · rw [runLoop_add]
    exact runLoop_finished 1 _ hfin
  · rw [show Adv.run_multi_agent_system task max_iterations =
      Adv.runLoop (Adv.runFuel max_iterations) (Adv.initState task max_iterations) from rfl,
      hiter, e2]
  · rw [show Adv.run_multi_agent_system task max_iterations =
      Adv.runLoop (Adv.runFuel max_iterations) (Adv.initState task max_iterations) from rfl,
      hmax, e2]
  · rw [show Adv.run_multi_agent_system task max_iterations =
      Adv.runLoop (Adv.runFuel max_iterations) (Adv.initState task max_iterations) from rfl]
    rcases hconv with h' | h' <;> rw [h']
    · norm_num
    · rw [qhalf_eq]; norm_num
  · rw [hturn, e1, e2]; omega

/-- C2 witness at `task = "X"`, `max_iterations = 3`. -/
theorem C2_witness :
    Adv.decide_if_finished (Adv.run_multi_agent_system "X" 3) = true ∧
    Adv.runLoop (Adv.runFuel 3 + 1) (Adv.initState "X" 3) =
      Adv.run_multi_agent_system "X" 3 ∧
    (Adv.run_multi_agent_system "X" 3).current_iteration = 3 ∧
    (Adv.run_multi_agent_system "X" 3).max_iterations = 3 ∧
    (Adv.run_multi_agent_system "X" 3).convergence_score < 9/10 ∧
    Adv.coordTurns (Adv.runFuel 3) (Adv.initState "X" 3) = (3 : Int).toNat :=
  C2_run_terminates "X" 3 (by norm_num)

/-- C3 evaluation at the failing input `task = "X"`, `max_iterations = 3`:
the run performs exactly 3 Coordinator cycles and produces a non-null
solution as claimed, but it exits by budget exhaustion immediately after
the third Coordinator turn: the Evaluator never appears as a sender in
the log, and the convergence score stays 0 instead of reaching 1.0. -/
theorem C3_budget_exit_before_final_evaluation :
    (Adv.run_multi_agent_system "X" 3).current_iteration = 3 ∧
    Adv.coordTurns (Adv.runFuel 3) (Adv.initState "X" 3) = 3 ∧
    (Adv.run_multi_agent_system "X" 3).solution =
      some ("FINAL SOLUTION:\n\nNo solution developed.") ∧
    (Adv.run_multi_agent_system "X" 3).convergence_score = 0 ∧
    ((Adv.run_multi_agent_system "X" 3).messages.all
      (fun m => !(m.from_agent == AgentRole.evaluator))) = true ∧
    (Adv.run_multi_agent_system "X" 3).current_agent = AgentRole.evaluator ∧
    Adv.decide_if_finished (Adv.run_multi_agent_system "X" 3) = true := by
  decide

/-- C4.  On the final iteration (iteration nonzero and at least
`max_iterations - 1`), both Coordinators route unconditionally to the
Evaluator and set `solution` to the fixed header concatenated with the
join of the most recent two Executor response contents, or with the
literal string "No solution developed." when no Executor response exists
in the log. -/
theorem C4_final_iteration_routes_to_evaluator :
    (∀ s : Lab.MultiAgentState, s.current_iteration ≠ 0 →
      s.max_iterations - 1 ≤ s.current_iteration →
      (Lab.coordinator_agent s).current_agent = some .evaluator ∧
      (Lab.coordinator_agent s).solution = some ("FINAL SOLUTION:\n\n" ++
        (if (Lab.executionResults s).isEmpty then "No solution developed."
         else String.intercalate "\n"
           ((Lab.executionResults s).drop ((Lab.executionResults s).length - 2)))) ∧
      ∃ content, (Lab.coordinator_agent s).messages = s.messages ++
        [{ from_agent := .coordinator, to_agent := some .evaluator, content := content,
           timestamp := now, msg_type := "request", iteration := s.current_iteration }]) ∧
    (∀ s : Adv.MultiAgentState, s.current_iteration ≠ 0 →
      s.max_iterations - 1 ≤ s.current_iteration →
      (Adv.coordinator_agent s).current_agent = .evaluator ∧
      (Adv.coordinator_agent s).current_phase = some "final_evaluation" ∧
      (Adv.coordinator_agent s).solution = some ("FINAL SOLUTION:\n\n" ++
        (if (Adv.executionResults s).isEmpty then "No solution developed."
         else String.intercalate "\n"
           ((Adv.executionResults s).drop ((Adv.executionResults s).length - 2)))) ∧
      ∃ content, (Adv.coordinator_agent s).messages = s.messages ++
        [{ from_agent := .coordinator, to_agent := some .evaluator, content := content,
           timestamp := now, msg_type := "request", iteration := s.current_iteration }]) := by
  constructor
  · intro s h0 h1
    obtain ⟨ha, hs, hmsg⟩ := lab_coord_final s h0 (by omega)
    exact ⟨ha, hs, ⟨_, hmsg⟩⟩
  · intro s h0 h1
    obtain ⟨ha, hp, hs, hmsg⟩ := adv_coord_final s h0 (by omega)
    exact ⟨ha, hp, hs, ⟨_, hmsg⟩⟩

/-- C4 witness: a lab state at its final iteration holding two Executor
responses, and an advanced state at its final iteration with none. -/
theorem C4_witness :
    ((Lab.coordinator_agent labStateFinal).current_agent = some .evaluator ∧
      (Lab.coordinator_agent labStateFinal).solution = some ("FINAL SOLUTION:\n\n" ++
        (if (Lab.executionResults labStateFinal).isEmpty then "No solution developed."
         else String.intercalate "\n"
           ((Lab.executionResults labStateFinal).drop
             ((Lab.executionResults labStateFinal).length - 2)))) ∧
      ∃ content, (Lab.coordinator_agent labStateFinal).messages = labStateFinal.messages ++
        [{ from_agent := .coordinator, to_agent := some .evaluator, content := content,
           timestamp := now, msg_type := "request",
           iteration := labStateFinal.current_iteration }]) ∧
    ((Adv.coordinator_agent advStateFinal).current_agent = .evaluator ∧
      (Adv.coordinator_agent advStateFinal).current_phase = some "final_evaluation" ∧
      (Adv.coordinator_agent advStateFinal).solution = some ("FINAL SOLUTION:\n\n" ++
        (if (Adv.executionResults advStateFinal).isEmpty then "No solution developed."
         else String.intercalate "\n"
           ((Adv.executionResults advStateFinal).drop
             ((Adv.executionResults advStateFinal).length - 2)))) ∧
      ∃ content, (Adv.coordinator_agent advStateFinal).messages = advStateFinal.messages ++
        [{ from_agent := .coordinator, to_agent := some .evaluator, content := content,
           timestamp := now, msg_type := "request",
           iteration := advStateFinal.current_iteration }]) :=
  ⟨C4_final_iteration_routes_to_evaluator.1 labStateFinal (by decide) (by decide),
   C4_final_iteration_routes_to_evaluator.2 advStateFinal (by decide) (by decide)⟩

/-- C5.  In a middle iteration with no missing requested response, the lab
Coordinator selects the next role by `current_iteration % 3` over its
three non-terminal phases (0 → Researcher, 1 → Critic, 2 → Executor);
the advanced Coordinator does the same by `current_iteration % 4` over
four non-terminal phases, the fourth being the evaluation-check phase
(Evaluator, falling back to Researcher when no execution results exist). -/
theorem C5_phase_rotation :
    (∀ s : Lab.MultiAgentState, 0 < s.current_iteration →
      s.current_iteration < s.max_iterations - 1 →
      Lab.needed_not_met s = false →
      (s.current_iteration % 3 = 0 →
        (Lab.coordinator_agent s).current_agent = some .researcher) ∧
      (s.current_iteration % 3 = 1 →
        (Lab.coordinator_agent s).current_agent = some .critic) ∧
      (s.current_iteration % 3 = 2 →
        (Lab.coordinator_agent s).current_agent = some .executor)) ∧
    (∀ s : Adv.MultiAgentState, 0 < s.current_iteration →
      s.current_iteration < s.max_iterations - 1 →
      (s.current_iteration % 4 = 0 →
        (Adv.coordinator_agent s).current_agent = .researcher) ∧
      (s.current_iteration % 4 = 1 →
        (Adv.coordinator_agent s).current_agent = .critic) ∧
      (s.current_iteration % 4 = 2 →
        (Adv.coordinator_agent s).current_agent = .executor) ∧
      (s.current_iteration % 4 = 3 →
        (Adv.coordinator_agent s).current_agent =
          (if (Adv.executionResults s).isEmpty then AgentRole.researcher
           else AgentRole.evaluator))) := by
  constructor
  · intro s h0 h1 hm
    exact lab_coord_middle s (by omega) h1 hm
  · intro s h0 h1
    exact adv_coord_middle s (by omega) h1

/-- C5 witness: a lab middle state with remainder 0 and an advanced middle
state with remainder 1. -/
theorem C5_witness :
    ((labStateMid.current_iteration % 3 = 0 →
        (Lab.coordinator_agent labStateMid).current_agent = some .researcher) ∧
      (labStateMid.current_iteration % 3 = 1 →
        (Lab.coordinator_agent labStateMid).current_agent = some .critic) ∧
      (labStateMid.current_iteration % 3 = 2 →
        (Lab.coordinator_agent labStateMid).current_agent = some .executor)) ∧
    ((advStateMid.current_iteration % 4 = 0 →
        (Adv.coordinator_agent advStateMid).current_agent = .researcher) ∧
      (advStateMid.current_iteration % 4 = 1 →
        (Adv.coordinator_agent advStateMid).current_agent = .critic) ∧
      (advStateMid.current_iteration % 4 = 2 →
        (Adv.coordinator_agent advStateMid).current_agent = .executor) ∧
      (advStateMid.current_iteration % 4 = 3 →
        (Adv.coordinator_agent advStateMid).current_agent =
          (if (Adv.executionResults advStateMid).isEmpty then AgentRole.researcher
           else AgentRole.evaluator))) :=
  ⟨C5_phase_rotation.1 labStateMid (by decide) (by decide) (by decide),
   C5_phase_rotation.2 advStateMid (by decide) (by decide)⟩

/-- C6.  Whenever, in a middle iteration, the roles requested in the
previous cycle are non-empty and not all of them have responded, the lab
Coordinator appends a follow-up request to each missing role and makes
the first missing role the active one instead of advancing the phase. -/
theorem C6_missing_responses_reissued (s : Lab.MultiAgentState)
    (h0 : 0 < s.current_iteration) (h1 : s.current_iteration < s.max_iterations - 1)
    (hm : Lab.needed_not_met s = true) :
    Lab.missingResponses s ≠ [] ∧
    (Lab.coordinator_agent s).messages = s.messages ++
      (Lab.missingResponses s).map (fun agent =>
        { from_agent := .coordinator, to_agent := agent,
          content := "Following up on my previous request. Please respond.",
          timestamp := now, msg_type := "request", iteration := s.current_iteration }) ∧
    (Lab.coordinator_agent s).current_agent = (Lab.missingResponses s).headI := by
  obtain ⟨hmsg, ha, hne⟩ := lab_coord_missing s (by omega) h1 hm
  exact ⟨hne, hmsg, ha⟩

/-- C6 witness at a state with a researcher request left unanswered. -/
theorem C6_witness :
    Lab.missingResponses labStateMissing ≠ [] ∧
    (Lab.coordinator_agent labStateMissing).messages = labStateMissing.messages ++
      (Lab.missingResponses labStateMissing).map (fun agent =>
        { from_agent := .coordinator, to_agent := agent,
          content := "Following up on my previous request. Please respond.",
          timestamp := now, msg_type := "request",
          iteration := labStateMissing.current_iteration }) ∧
    (Lab.coordinator_agent labStateMissing).current_agent =
      (Lab.missingResponses labStateMissing).headI :=
  C6_missing_responses_reissued labStateMissing (by decide) (by decide) (by decide)

/-- C7.  No non-Evaluator agent function of either file ever changes the
convergence score, and along the advanced driver loop's trajectory the
score never decreases. -/
theorem C7_convergence_evaluator_exclusive :
    (∀ s : Lab.MultiAgentState,
      (Lab.coordinator_agent s).convergence_score = s.convergence_score) ∧
    (∀ s : Lab.MultiAgentState,
      (Lab.researcher_agent s).convergence_score = s.convergence_score) ∧
    (∀ s : Lab.MultiAgentState,
      (Lab.critic_agent s).convergence_score = s.convergence_score) ∧
    (∀ s : Lab.MultiAgentState,
      (Lab.executor_agent s).convergence_score = s.convergence_score) ∧
    (∀ s : Adv.MultiAgentState,
      (Adv.coordinator_agent s).convergence_score = s.convergence_score) ∧
    (∀ s : Adv.MultiAgentState,
      (Adv.researcher_agent s).convergence_score = s.convergence_score) ∧
    (∀ s : Adv.MultiAgentState,
      (Adv.critic_agent s).convergence_score = s.convergence_score) ∧
    (∀ s : Adv.MultiAgentState,
      (Adv.executor_agent s).convergence_score = s.convergence_score) ∧
    (∀ (task : String) (m : Int) (n : Nat),
      (Adv.runLoop n (Adv.initState task m)).convergence_score ≤
        (Adv.runLoop (n + 1) (Adv.initState task m)).convergence_score) := by
  refine ⟨?_, fun s => rfl, fun s => rfl, fun s => rfl,
          adv_coord_conv, fun s => rfl, fun s => rfl, fun s => rfl, conv_mono⟩
  intro s
  unfold Lab.coordinator_agent
  repeat' split
  all_goals rfl

/-- C8.  Every role invocation of either file only appends to the message
log; the four worker roles append exactly one message each, of type
"response", attributed to the role and addressed to the Coordinator. -/
theorem C8_append_only_response_protocol :
    (∀ s : Lab.MultiAgentState, ∃ content,
      (Lab.researcher_agent s).messages = s.messages ++
        [{ from_agent := .researcher, to_agent := some .coordinator, content := content,
           timestamp := now, msg_type := "response", iteration := s.current_iteration - 1 }]) ∧
    (∀ s : Lab.MultiAgentState, ∃ content,
      (Lab.critic_agent s).messages = s.messages ++
        [{ from_agent := .critic, to_agent := some .coordinator, content := content,
           timestamp := now, msg_type := "response", iteration := s.current_iteration - 1 }]) ∧
    (∀ s : Lab.MultiAgentState, ∃ content,
      (Lab.executor_agent s).messages = s.messages ++
        [{ from_agent := .executor, to_agent := some .coordinator, content := content,
           timestamp := now, msg_type := "response", iteration := s.current_iteration - 1 }]) ∧
    (∀ s : Lab.MultiAgentState, ∃ content,
      (Lab.evaluator_agent s).messages = s.messages ++
        [{ from_agent := .evaluator, to_agent := some .coordinator, content := content,
           timestamp := now, msg_type := "response", iteration := s.current_iteration - 1 }]) ∧
    (∀ s : Lab.MultiAgentState, ∃ appended,
      (Lab.coordinator_agent s).messages = s.messages ++ appended) ∧
    (∀ s : Adv.MultiAgentState, ∃ content,
      (Adv.researcher_agent s).messages = s.messages ++
        [{ from_agent := .researcher, to_agent := some .coordinator, content := content,
           timestamp := now, msg_type := "response", iteration := s.current_iteration - 1 }]) ∧
    (∀ s : Adv.MultiAgentState, ∃ content,
      (Adv.critic_agent s).messages = s.messages ++
        [{ from_agent := .critic, to_agent := some .coordinator, content := content,
           timestamp := now, msg_type := "response", iteration := s.current_iteration - 1 }]) ∧
    (∀ s : Adv.MultiAgentState, ∃ content,
      (Adv.executor_agent s).messages = s.messages ++
        [{ from_agent := .executor, to_agent := some .coordinator, content := content,
           timestamp := now, msg_type := "response", iteration := s.current_iteration - 1 }]) ∧
    (∀ s : Adv.MultiAgentState, ∃ content,
      (Adv.evaluator_agent s).messages = s.messages ++
        [{ from_agent := .evaluator, to_agent := some .coordinator, content := content,
           timestamp := now, msg_type := "response", iteration := s.current_iteration - 1 }]) ∧
    (∀ s : Adv.MultiAgentState, ∃ appended,
      (Adv.coordinator_agent s).messages = s.messages ++ appended) := by
  refine ⟨fun s => ⟨_, rfl⟩, fun s => ⟨_, rfl⟩, fun s => ⟨_, rfl⟩, fun s => ⟨_, rfl⟩,
          ?_, fun s => ⟨_, rfl⟩, fun s => ⟨_, rfl⟩, fun s => ⟨_, rfl⟩, fun s => ⟨_, rfl⟩, ?_⟩
  · intro s
    unfold Lab.coordinator_agent
    repeat' split
    all_goals exact ⟨_, rfl⟩
  · intro s
    unfold Adv.coordinator_agent
    repeat' split
    all_goals exact ⟨_, rfl⟩

/-- C9.  One lab Coordinator cycle followed by the selected worker's turn:
all messages the Coordinator appends are requests tagged with the
pre-increment iteration; the worker's response is tagged with the
worker-time `current_iteration - 1`, which is that same value; and the
`received_responses` filter at the next Coordinator turn (previous-cycle
responses addressed to the Coordinator) finds exactly the new response.
The advanced researcher tags its response the same way. -/
theorem C9_response_iteration_alignment :
    (∀ (s : Lab.MultiAgentState) (r : AgentRole), r ≠ .coordinator →
      (∀ m ∈ s.messages, m.iteration < s.current_iteration) →
      (Lab.coordinator_agent s).current_agent = some r →
      ∃ (reqs : List AgentMessage) (content : String),
        (Lab.coordinator_agent s).messages = s.messages ++ reqs ∧
        (∀ m ∈ reqs, m.from_agent = .coordinator ∧ m.msg_type = "request" ∧
          m.iteration = s.current_iteration) ∧
        (∃ m ∈ reqs, m.to_agent = some r) ∧
        (Lab.agentFn r (Lab.coordinator_agent s)).current_iteration =
          s.current_iteration + 1 ∧
        (Lab.agentFn r (Lab.coordinator_agent s)).messages = s.messages ++ reqs ++
          [{ from_agent := r, to_agent := some .coordinator, content := content,
             timestamp := now, msg_type := "response",
             iteration := s.current_iteration }] ∧
        Lab.receivedResponses (Lab.agentFn r (Lab.coordinator_agent s)) = [r]) ∧
    (∀ s : Adv.MultiAgentState, ∃ content,
      (Adv.researcher_agent s).messages = s.messages ++
        [{ from_agent := .researcher, to_agent := some .coordinator, content := content,
           timestamp := now, msg_type := "response",
           iteration := s.current_iteration - 1 }]) := by
  constructor
  · intro s r hr hold hsel
    obtain ⟨reqs, hmsgs, hprops, hto, hiter⟩ := lab_coord_appends s
    obtain ⟨content, hwmsgs, hwiter⟩ := lab_worker_resp r hr (Lab.coordinator_agent s)
    refine ⟨reqs, content, hmsgs, hprops, hto r hsel, ?_, ?_, ?_⟩
    · rw [hwiter, hiter]
    · rw [hwmsgs, hmsgs, hiter]
      simp [Int.add_sub_cancel, List.append_assoc]
    · unfold Lab.receivedResponses Lab.recentMessages
      rw [hwmsgs, hmsgs, hwiter, hiter]
      simp only [Int.add_sub_cancel, List.filter_append]
      have h1 : s.messages.filter (fun m => m.iteration == s.current_iteration) = [] := by
        rw [List.filter_eq_nil_iff]
        intro m hm
        have := hold m hm
        simp only [beq_iff_eq]
        omega
      have h2 : reqs.filter (fun m => m.iteration == s.current_iteration) = reqs := by
        rw [List.filter_eq_self]
        intro m hm
        simp only [beq_iff_eq]
        exact (hprops m hm).2.2
      have h3 : reqs.filter (fun m =>
          m.msg_type == "response" && m.to_agent == some AgentRole.coordinator) = [] := by
        rw [List.filter_eq_nil_iff]
        intro m hm
        have := (hprops m hm).2.1
        simp only [Bool.and_eq_true, beq_iff_eq]
        intro hcon
        rw [this] at hcon
        simp at hcon
      rw [h1, h2, h3]
      simp [dedupIns]
  · intro s
    exact ⟨_, rfl⟩

/-- C9 witness: the bootstrap cycle from a fresh lab state, answered by
the Researcher. -/
theorem C9_witness :
    ∃ (reqs : List AgentMessage) (content : String),
      (Lab.coordinator_agent labState0).messages = labState0.messages ++ reqs ∧
      (∀ m ∈ reqs, m.from_agent = .coordinator ∧ m.msg_type = "request" ∧
        m.iteration = labState0.current_iteration) ∧
      (∃ m ∈ reqs, m.to_agent = some AgentRole.researcher) ∧
      (Lab.agentFn .researcher (Lab.coordinator_agent labState0)).current_iteration =
        labState0.current_iteration + 1 ∧
      (Lab.agentFn .researcher (Lab.coordinator_agent labState0)).messages =
        labState0.messages ++ reqs ++
        [{ from_agent := .researcher, to_agent := some .coordinator, content := content,
           timestamp := now, msg_type := "response",
           iteration := labState0.current_iteration }] ∧
      Lab.receivedResponses (Lab.agentFn .researcher (Lab.coordinator_agent labState0)) =
        [AgentRole.researcher] :=
  C9_response_iteration_alignment.1 labState0 .researcher (by decide) (by decide) (by decide)

/-- C10.  An advanced Evaluator turn taken outside the final-evaluation
phase sets the convergence score to exactly 0.5, which is below the 0.9
threshold, so immediately after such an intermediate evaluation the run
can only be finished through the iteration budget, never through the
quality-based early exit. -/
theorem C10_intermediate_evaluation_capped (s : Adv.MultiAgentState)
    (h : s.current_phase ≠ some "final_evaluation") :
    (Adv.evaluator_agent s).convergence_score = 1/2 ∧
    ¬((1/2 : ℚ) ≥ 9/10) ∧
    (Adv.decide_if_finished (Adv.evaluator_agent s) = true ↔
      (Adv.evaluator_agent s).current_iteration ≥
        (Adv.evaluator_agent s).max_iterations) := by
  have hc : (Adv.evaluator_agent s).convergence_score = qhalf := by
    show (if s.current_phase = some "final_evaluation" then (1 : ℚ) else qhalf) = qhalf
    rw [if_neg h]
  refine ⟨by rw [hc, qhalf_eq], by norm_num, ?_⟩
  rw [adv_decide_iff]
  constructor
  · rintro (h' | h')
    · rw [hc] at h'
      exact absurd h' (by decide)
    · exact h'
  · exact Or.inr

/-- C10 witness at an intermediate-evaluation state. -/
theorem C10_witness :
    (Adv.evaluator_agent advStateEval).convergence_score = 1/2 ∧
    ¬((1/2 : ℚ) ≥ 9/10) ∧
    (Adv.decide_if_finished (Adv.evaluator_agent advStateEval) = true ↔
      (Adv.evaluator_agent advStateEval).current_iteration ≥
        (Adv.evaluator_agent advStateEval).max_iterations) :=
  C10_intermediate_evaluation_capped advStateEval (by decide)


end MultiAgent
